import Mathlib

/-
Verification of the OAuth flow and client layer of the shopify-api-js
repository, shallowly embedded in Lean.

The embedding follows the source files:
  - src/lib/auth/oauth/oauth.ts (begin, callback, validQuery, createSession,
    throwIfPrivateApp),
  - src/lib/clients/graphql/graphql_client.ts (GraphqlClient).
Collaborators whose source is not part of the bundle (the signed cookie jar of
runtime/http, the hmac validator, safe-compare, session-utils, shop-validator,
ProcessedQuery, and the cookie-name constants) are modelled from the
specification; their doc comments start with "Modelled from the spec:".
Randomness (nonce, uuidv4) and the clock (Date.now) are explicit arguments, and
the token-exchange HTTP collaborator's successful response body is an argument.
-/

namespace ShopifyApi

/-- Typed errors raised by the library; the constructors are named after the
error classes the source references (ShopifyErrors.PrivateAppError and so on). -/
inductive ShopifyError where
  | PrivateAppError (msg : String)
  | InvalidShopError (msg : String)
  | CookieNotFound (msg : String)
  | InvalidOAuthError (msg : String)
  | MissingRequiredArgument (msg : String)
  | GraphqlQueryError (msg : String)
  deriving DecidableEq, Repr

/-- The configuration surface the core consumes (section 6 of the spec);
scopes is the string rendering the source obtains from config.scopes.toString(). -/
structure ConfigInterface where
  apiKey : String
  apiSecretKey : String
  scopes : String
  hostName : String
  hostScheme : String
  isEmbeddedApp : Bool
  isPrivateApp : Bool
  apiVersion : String
  deriving DecidableEq, Repr

/-- Modelled from the spec: the deterministic cryptographic and validation
collaborators whose source is not in the bundle — the cookie MAC used by the
signed cookie jar of runtime/http, the HMAC-SHA256 digest used by
utils/hmac-validator, and the shop-domain validator utils/shop-validator
(none returned means the shop fails the platform's domain syntax). The
theorems below hold for every choice of these functions. -/
structure Collaborators where
  mac : String → String → String
  hmacSha256 : String → String → String
  sanitizeShop : String → Option String

/-- A cookie as presented by the client or written by the server: a name, a
value, and the MAC the jar stores alongside the value. -/
structure SignedCookie where
  name : String
  value : String
  sig : String
  deriving DecidableEq, Repr

/-- An outgoing response cookie mutation: set a signed cookie, or mark a cookie
for deletion. -/
inductive CookieDelta where
  | set (c : SignedCookie)
  | del (name : String)
  deriving DecidableEq, Repr

/-- Modelled from the spec: the MAC of the signed cookie jar (section 4.2) ties
the cookie name and value to a configured secret key. -/
def cookieMac (env : Collaborators) (key name value : String) : String :=
  env.mac key (name ++ "=" ++ value)

/-- Find the inbound cookie with the given name. -/
def lookupCookie (jar : List SignedCookie) (name : String) : Option SignedCookie :=
  jar.find? (fun c => c.name == name)

/-- Modelled from the spec: getVerified of the signed cookie jar returns the
value only when the recomputed MAC matches one of the configured keys; a missing
and a forged cookie are alike absent (section 4.2). -/
def cookiesGetAndVerify (env : Collaborators) (keys : List String)
    (jar : List SignedCookie) (name : String) : Option String :=
  match lookupCookie jar name with
  | some c =>
    if keys.any (fun k => cookieMac env k name c.value == c.sig) then some c.value else none
  | none => none

/-- Modelled from the spec: setSigned of the signed cookie jar signs with the
primary (first) configured key (section 4.2). -/
def cookiesSetAndSign (env : Collaborators) (keys : List String)
    (name value : String) : CookieDelta :=
  CookieDelta.set { name := name, value := value, sig := cookieMac env (keys.headD "") name value }

/-- Apply one response cookie mutation to a client-held jar. -/
def applyDelta (jar : List SignedCookie) : CookieDelta → List SignedCookie
  | CookieDelta.del n => jar.filter (fun c => !(c.name == n))
  | CookieDelta.set c => jar.filter (fun x => !(x.name == c.name)) ++ [c]

/-- A client that honors cookie semantics applies the response cookie mutations
in order to its jar. -/
def applyDeltas (jar : List SignedCookie) (ds : List CookieDelta) : List SignedCookie :=
  ds.foldl applyDelta jar

/-- Modelled from the spec: the state cookie name constant the source imports
from the auth types module, which is not in the bundle. -/
def stateCookieName : String := "shopify_app_state"

/-- Modelled from the spec: the session cookie name constant the source imports
from the auth types module, which is not in the bundle. -/
def sessionCookieName : String := "shopify_app_session"

/-- UTF-8 bytes of a code point, as used by URL-encoding. -/
def utf8Bytes (n : Nat) : List Nat :=
  if n < 128 then [n]
  else if n < 2048 then [192 + n / 64, 128 + n % 64]
  else if n < 65536 then [224 + n / 4096, 128 + (n / 64) % 64, 128 + n % 64]
  else [240 + n / 262144, 128 + (n / 4096) % 64, 128 + (n / 64) % 64, 128 + n % 64]

/-- Uppercase hexadecimal digit. -/
def hexDigit (n : Nat) : Char :=
  if n < 10 then Char.ofNat (48 + n) else Char.ofNat (55 + n)

/-- Percent-encoding of one byte. -/
def percentByte (n : Nat) : String :=
  String.mk [Char.ofNat 37, hexDigit (n / 16), hexDigit (n % 16)]

/-- Characters a URL component encoder leaves as-is: alphanumerics and the
punctuation set of the JS encoder (codes 33, 39, 40, 41, 42, 45, 46, 95, 126). -/
def isUnreservedChar (c : Char) : Bool :=
  (65 ≤ c.toNat && c.toNat ≤ 90) || (97 ≤ c.toNat && c.toNat ≤ 122) ||
  (48 ≤ c.toNat && c.toNat ≤ 57) ||
  [33, 39, 40, 41, 42, 45, 46, 95, 126].contains c.toNat

/-- Modelled from the spec: URL-encoding of query keys and values (section 4.3),
as the JS component encoder does it. -/
def encodeURIComponent (s : String) : String :=
  String.join (s.data.map (fun c =>
    if isUnreservedChar c then String.singleton c
    else String.join ((utf8Bytes c.toNat).map percentByte)))

/-- Join strings with an ampersand separator. -/
def joinAmp : List String → String
  | [] => ""
  | [x] => x
  | x :: y :: xs => x ++ "&" ++ joinAmp (y :: xs)

/-- Modelled from the spec: ProcessedQuery.stringify, producing the query string
of the authorization URL shown in section 6 — keys literal, values URL-encoded,
pairs joined with ampersands behind a question mark. -/
def stringifyQuery (ps : List (String × String)) : String :=
  "?" ++ joinAmp (ps.map (fun p => p.1 ++ "=" ++ encodeURIComponent p.2))

/-- Modelled from the spec: safeCompare is a constant-time string equality
check; timing is outside this model, so it is value equality. -/
def safeCompare (a b : String) : Bool := a == b

/-- Insert a key/value pair into a key-sorted list. -/
def insertByKey (p : String × String) : List (String × String) → List (String × String)
  | [] => [p]
  | q :: qs => if (compare p.1 q.1).isLE then p :: q :: qs else q :: insertByKey p qs

/-- Sort query parameters by key. -/
def sortByKey : List (String × String) → List (String × String)
  | [] => []
  | p :: ps => insertByKey p (sortByKey ps)

/-- Modelled from the spec: the canonical string of HmacVerifier.verify
(section 4.3) — drop the hmac and signature parameters, sort the rest by key,
URL-encode, and join as k=v pairs with ampersands. -/
def hmacCanonical (query : List (String × String)) : String :=
  String.intercalate "&"
    ((sortByKey (query.filter (fun p => p.1 != "hmac" && p.1 != "signature"))).map
      (fun p => encodeURIComponent p.1 ++ "=" ++ encodeURIComponent p.2))

/-- Modelled from the spec: HmacVerifier.verify (utils/hmac-validator, not in
the bundle) — digest the canonical string with HMAC-SHA256 keyed by the app
secret and compare in constant time against the supplied hmac parameter; a
query without an hmac parameter fails. -/
def validateHmac (env : Collaborators) (config : ConfigInterface)
    (query : List (String × String)) : Bool :=
  match query.lookup "hmac" with
  | none => false
  | some given => safeCompare (env.hmacSha256 config.apiSecretKey (hmacCanonical query)) given

/-- From the source validQuery: the HMAC check conjoined with the constant-time
comparison of the state query parameter against the cookie value; an absent
state parameter is a failed comparison (safeCompare is modelled from the spec). -/
def validQuery (env : Collaborators) (config : ConfigInterface)
    (query : List (String × String)) (stateFromCookie : String) : Bool :=
  validateHmac env config query &&
    (match query.lookup "state" with
     | some s => safeCompare s stateFromCookie
     | none => false)

/-- The associated user of an online token-exchange response. -/
structure AssociatedUser where
  id : Int
  deriving DecidableEq, Repr

/-- The fields of an online token-exchange response other than access_token and
scope: exactly the rest object the source stores as onlineAccessInfo. -/
structure OnlineAccessInfoRest where
  expires_in : Nat
  associated_user_scope : String
  associated_user : AssociatedUser
  deriving DecidableEq, Repr

/-- The token-exchange response body: access_token and scope always; the online
block (expires_in, associated_user and friends) present exactly when the
platform returned an associated_user — the two documented response shapes of
section 6 of the spec. -/
structure TokenResponseBody where
  access_token : String
  scope : String
  online : Option OnlineAccessInfoRest
  deriving DecidableEq, Repr

/-- The Session entity the flow returns. -/
structure Session where
  id : String
  shop : String
  state : String
  isOnline : Bool
  accessToken : Option String
  scope : Option String
  expires : Option Int
  onlineAccessInfo : Option OnlineAccessInfoRest
  deriving DecidableEq, Repr

/-- Modelled from the spec: getOfflineId of session-utils (not in the bundle),
the deterministic offline_<shop> identifier. -/
def getOfflineId (shop : String) : String := "offline_" ++ shop

/-- Modelled from the spec: getJwtSessionId of session-utils (not in the
bundle), the deterministic <shop>_<userId> identifier used in embedded-app
mode. -/
def getJwtSessionId (shop userId : String) : String := shop ++ "_" ++ userId

/-- From the source createSession: classify the token-exchange body by the
presence of associated_user, derive the session id, and build the Session.
Date.now() at creation is the now argument (milliseconds since the epoch);
the uuidv4() draw is the freshUuid argument. -/
def createSession (config : ConfigInterface) (postResponseBody : TokenResponseBody)
    (shop stateFromCookie : String) (now : Int) (freshUuid : String) : Session :=
  match postResponseBody.online with
  | some rest =>
    let sessionId := if config.isEmbeddedApp
      then getJwtSessionId shop (toString rest.associated_user.id)
      else freshUuid
    { id := sessionId, shop := shop, state := stateFromCookie, isOnline := true,
      accessToken := some postResponseBody.access_token,
      scope := some postResponseBody.scope,
      expires := some (now + (rest.expires_in : Int) * 1000),
      onlineAccessInfo := some rest }
  | none =>
    { id := getOfflineId shop, shop := shop, state := stateFromCookie, isOnline := false,
      accessToken := some postResponseBody.access_token,
      scope := some postResponseBody.scope,
      expires := none, onlineAccessInfo := none }

/-- The response of begin: status, the Location header, and the response cookie
mutations (the Set-Cookie bag of the normalized response). -/
structure BeginResult where
  statusCode : Nat
  statusText : String
  location : String
  setCookies : List CookieDelta
  deriving DecidableEq, Repr

/-- From the source begin: reject private apps, sanitize the shop, sign the
state nonce into the state cookie, and return the 302 redirect to the
authorization URL. The nonce() draw is the state argument; the adapter
conversion plumbing and the cookie expiry attributes are dropped. -/
def begin (env : Collaborators) (config : ConfigInterface)
    (shop callbackPath : String) (isOnline : Bool) (state : String) :
    Except ShopifyError BeginResult :=
  if config.isPrivateApp then
    Except.error (ShopifyError.PrivateAppError "Cannot perform OAuth for private apps")
  else
    match env.sanitizeShop shop with
    | none =>
      Except.error (ShopifyError.InvalidShopError ("Received invalid shop argument: " ++ shop))
    | some cleanShop =>
      let stateCookie := cookiesSetAndSign env [config.apiSecretKey] stateCookieName state
      let redirectUrl := "https://" ++ cleanShop ++ "/admin/oauth/authorize" ++
        stringifyQuery
          [("client_id", config.apiKey),
           ("scope", config.scopes),
           ("redirect_uri", config.hostScheme ++ "://" ++ config.hostName ++ callbackPath),
           ("state", state),
           ("grant_options[]", if isOnline then "per-user" else "")]
      Except.ok { statusCode := 302, statusText := "Found",
                  location := redirectUrl, setCookies := [stateCookie] }

/-- The inbound callback request: the query parameters parsed from the request
URL, and the cookies presented by the client. -/
structure NormalizedRequest where
  query : List (String × String)
  cookies : List SignedCookie
  deriving DecidableEq, Repr

/-- The value of callback: the response cookie mutations the caller must
forward, the Session, and the log lines relevant here. -/
structure CallbackResult where
  outCookies : List CookieDelta
  session : Session
  logs : List String
  deriving DecidableEq, Repr

/-- The deprecation notice the source logs when the isOnline parameter is
supplied to callback. -/
def deprecationNotice : String :=
  "The isOnline param is no longer required for auth callback"

/-- From the source callback, minus the deprecation log (attached in callback):
reject private apps, read and delete the signed state cookie (absent or forged
raises CookieNotFound), validate the query (failure raises InvalidOAuthError),
sanitize the shop, build the Session from the token-exchange body (the
collaborator HTTP POST result is the tokenResponse argument), and for
non-embedded apps sign the session id into the session cookie. -/
def callbackCore (env : Collaborators) (config : ConfigInterface)
    (req : NormalizedRequest) (tokenResponse : TokenResponseBody)
    (now : Int) (freshUuid : String) :
    Except ShopifyError (List CookieDelta × Session) :=
  if config.isPrivateApp then
    Except.error (ShopifyError.PrivateAppError "Cannot perform OAuth for private apps")
  else
    match cookiesGetAndVerify env [config.apiSecretKey] req.cookies stateCookieName with
    | none =>
      Except.error (ShopifyError.CookieNotFound
        ("Cannot complete OAuth process. Could not find an OAuth cookie for shop url: " ++
          (req.query.lookup "shop").getD ""))
    | some stateFromCookie =>
      if validQuery env config req.query stateFromCookie then
        match env.sanitizeShop ((req.query.lookup "shop").getD "") with
        | none =>
          Except.error (ShopifyError.InvalidShopError
            ("Received invalid shop argument: " ++ (req.query.lookup "shop").getD ""))
        | some cleanShop =>
          Except.ok
            ((if config.isEmbeddedApp then
                [CookieDelta.del stateCookieName]
              else
                [CookieDelta.del stateCookieName,
                 cookiesSetAndSign env [config.apiSecretKey] sessionCookieName
                   (createSession config tokenResponse cleanShop stateFromCookie now freshUuid).id]),
             createSession config tokenResponse cleanShop stateFromCookie now freshUuid)
      else
        Except.error (ShopifyError.InvalidOAuthError "Invalid OAuth callback.")

/-- From the source callback: the deprecated isOnline parameter is only logged
when supplied and is never read again; everything else is callbackCore. -/
def callback (env : Collaborators) (config : ConfigInterface)
    (req : NormalizedRequest) (isOnlineParam : Option Bool)
    (tokenResponse : TokenResponseBody) (now : Int) (freshUuid : String) :
    Except ShopifyError CallbackResult :=
  Except.map
    (fun ds => { outCookies := ds.1, session := ds.2,
                 logs := if isOnlineParam.isSome then [deprecationNotice] else [] })
    (callbackCore env config req tokenResponse now freshUuid)

/-- The session relevant to the GraphQL client: its shop and access token. -/
structure GQSession where
  shop : String
  accessToken : Option String
  deriving DecidableEq, Repr

/-- JS truthiness of an optional string field: undefined and the empty string
are falsy. -/
def truthyStr : Option String → Bool
  | none => false
  | some s => s != ""

/-- The constructed GraphQL client: its session and the shop domain its inner
HTTP client is bound to. -/
structure GraphqlClientModel where
  session : GQSession
  clientDomain : String
  deriving DecidableEq, Repr

/-- From the source GraphqlClient constructor: for non-private apps a session
without a (truthy) access token raises MissingRequiredArgument; otherwise the
inner HTTP client is bound to the session shop. -/
def mkGraphqlClient (config : ConfigInterface) (session : GQSession) :
    Except ShopifyError GraphqlClientModel :=
  if !config.isPrivateApp && !truthyStr session.accessToken then
    Except.error
      (ShopifyError.MissingRequiredArgument "Missing access token when creating GraphQL client")
  else
    Except.ok { session := session, clientDomain := session.shop }

/-- Modelled from the spec: the ShopifyHeader.AccessToken constant of the types
module, which is not in the bundle — the platform's access-token request
header. -/
def accessTokenHeaderName : String := "X-Shopify-Access-Token"

/-- The header/value pair getAccessTokenHeader returns. -/
structure AccessTokenHeader where
  header : String
  value : String
  deriving DecidableEq, Repr

/-- From the source getAccessTokenHeader: private apps send the configured API
secret key, other apps the session access token. -/
def getAccessTokenHeader (config : ConfigInterface) (session : GQSession) : AccessTokenHeader :=
  { header := accessTokenHeaderName,
    value := if config.isPrivateApp then config.apiSecretKey else session.accessToken.getD "" }

/-- A JSON value, with the constructors the response bodies need. -/
inductive Json where
  | null
  | bool (b : Bool)
  | num (n : Int)
  | str (s : String)
  | arr (elems : List Json)
  | obj (fields : List (String × Json))
  deriving Repr

/-- JS truthiness of a JSON value (NaN aside): null, false, zero and the empty
string are falsy; arrays and objects are truthy. -/
def jsTruthy : Json → Bool
  | Json.null => false
  | Json.bool b => b
  | Json.num n => n != 0
  | Json.str s => s != ""
  | Json.arr _ => true
  | Json.obj _ => true

/-- Property access on a response body: some value when the body is an object
with that field, otherwise undefined (none). -/
def getField (j : Json) (name : String) : Option Json :=
  match j with
  | Json.obj fields => fields.lookup name
  | _ => none

/-- Whether the body is an object carrying the given field at all. -/
def hasField (j : Json) (name : String) : Bool :=
  (getField j name).isSome

/-- JS truthiness of a field access on the body. -/
def truthyField (j : Json) (name : String) : Bool :=
  match getField j name with
  | some v => jsTruthy v
  | none => false

/-- The data argument of GraphqlClient.query: a query string or an object. -/
inductive GraphqlData where
  | str (s : String)
  | obj (entries : List (String × Json))
  deriving Repr

/-- Object.entries length of the query data: a string enumerates its
characters, an object its fields. -/
def dataEntriesLength : GraphqlData → Nat
  | GraphqlData.str s => s.length
  | GraphqlData.obj entries => entries.length

/-- The emptiness check of GraphqlClient.query: a string of length zero, or
data whose Object.entries is empty. -/
def queryDataMissing (d : GraphqlData) : Bool :=
  (match d with
   | GraphqlData.str s => s.length == 0
   | GraphqlData.obj _ => false) || dataEntriesLength d == 0

/-- The HTTP response the inner client returns from the POST. -/
structure RequestReturn where
  body : Json
  deriving Repr

/-- From the source GraphqlClient.query: empty query data raises
MissingRequiredArgument before the HTTP POST (the result is the same for every
postResult, reflecting that no request is issued); the POST result is rejected
with GraphqlQueryError when its body has a truthy errors field, and returned
unchanged otherwise. -/
def graphqlQuery (data : GraphqlData) (postResult : RequestReturn) :
    Except ShopifyError RequestReturn :=
  if queryDataMissing data then
    Except.error (ShopifyError.MissingRequiredArgument "Query missing.")
  else if truthyField postResult.body "errors" then
    Except.error (ShopifyError.GraphqlQueryError "GraphQL query returned errors")
  else
    Except.ok postResult

/-- The first set-mutation for a cookie name among response cookie mutations. -/
def findSetCookie : List CookieDelta → String → Option SignedCookie
  | [], _ => none
  | CookieDelta.set c :: ds, n => if c.name == n then some c else findSetCookie ds n
  | CookieDelta.del _ :: ds, n => findSetCookie ds n

/-- The Location header of a begin result, empty on error. -/
def locationOf : Except ShopifyError BeginResult → String
  | Except.ok r => r.location
  | Except.error _ => ""

/-- Whether an Except value is a success. -/
def exceptIsOk {ε α : Type} : Except ε α → Bool
  | Except.ok _ => true
  | Except.error _ => false

/-- Whether a flow result is specifically a CookieNotFound error. -/
def isCookieNotFound {α : Type} : Except ShopifyError α → Bool
  | Except.error (ShopifyError.CookieNotFound _) => true
  | _ => false

/-- A concrete choice of collaborators used by the witnesses: injective tagged
concatenations for the two digests, and a validator accepting every non-empty
shop. -/
def envA : Collaborators :=
  { mac := fun k v => "m[" ++ k ++ "|" ++ v ++ "]",
    hmacSha256 := fun k v => "h[" ++ k ++ "|" ++ v ++ "]",
    sanitizeShop := fun s => if s == "" then none else some s }

/-- A concrete embedded-app configuration. -/
def cfgA : ConfigInterface :=
  { apiKey := "key", apiSecretKey := "sec", scopes := "read_products",
    hostName := "app.example.io", hostScheme := "https",
    isEmbeddedApp := true, isPrivateApp := false, apiVersion := "2022-10" }

/-- The same configuration with embedded-app mode off. -/
def cfgNE : ConfigInterface := { cfgA with isEmbeddedApp := false }

/-- The same configuration marked as a private app. -/
def cfgPriv : ConfigInterface := { cfgA with isPrivateApp := true }

/-- A well-signed state cookie carrying the nonce nonce1. -/
def stateCookieA : SignedCookie :=
  { name := stateCookieName, value := "nonce1",
    sig := cookieMac envA "sec" stateCookieName "nonce1" }

/-- A callback request whose state cookie verifies but whose hmac parameter is
wrong. -/
def reqA : NormalizedRequest :=
  { query := [("shop", "shop1.myshopify.io"), ("state", "tampered"), ("code", "c"),
              ("hmac", "bad"), ("timestamp", "1")],
    cookies := [stateCookieA] }

/-- The platform query parameters of a valid callback, before the hmac. -/
def reqBQueryBase : List (String × String) :=
  [("shop", "shop1.myshopify.io"), ("state", "nonce1"), ("code", "c"), ("timestamp", "1")]

/-- A fully valid callback request: well-signed cookie and matching hmac. -/
def reqB : NormalizedRequest :=
  { query := reqBQueryBase ++
      [("hmac", envA.hmacSha256 cfgA.apiSecretKey (hmacCanonical reqBQueryBase))],
    cookies := [stateCookieA] }

/-- An offline token-exchange response body. -/
def trOffline : TokenResponseBody :=
  { access_token := "tok", scope := "read_products", online := none }

/-- The online block of a token-exchange response for user 999. -/
def onlineRest999 : OnlineAccessInfoRest :=
  { expires_in := 3600, associated_user_scope := "read_products",
    associated_user := { id := 999 } }

/-- An online token-exchange response body for user 999. -/
def trOnline999 : TokenResponseBody :=
  { access_token := "tok", scope := "read_products", online := some onlineRest999 }

/-- A callback request presenting no cookies at all. -/
def reqNoCookie : NormalizedRequest :=
  { query := reqBQueryBase, cookies := [] }

/-- The result of the valid online callback under the embedded configuration. -/
def resBonline : CallbackResult :=
  { outCookies := [CookieDelta.del stateCookieName],
    session := createSession cfgA trOnline999 "shop1.myshopify.io" "nonce1" 0 "u",
    logs := [] }

/-- The result of the valid offline callback under the non-embedded
configuration. -/
def resNEoff : CallbackResult :=
  { outCookies := [CookieDelta.del stateCookieName,
      cookiesSetAndSign envA [cfgNE.apiSecretKey] sessionCookieName
        (createSession cfgNE trOffline "shop1.myshopify.io" "nonce1" 0 "u").id],
    session := createSession cfgNE trOffline "shop1.myshopify.io" "nonce1" 0 "u",
    logs := [] }

/-- A session without an access token. -/
def sessNoTok : GQSession := { shop := "shop1.myshopify.io", accessToken := none }

/-- A non-empty GraphQL query string. -/
def dataQ : GraphqlData := GraphqlData.str "query shopInfo"

/-- A response body carrying an errors key with a falsy (null) value. -/
def respFalsyErrors : RequestReturn :=
  { body := Json.obj [("errors", Json.null), ("data", Json.str "ok")] }

/-- A response body carrying a truthy errors value. -/
def respErrors : RequestReturn :=
  { body := Json.obj [("errors", Json.arr [Json.str "boom"])] }

example : exceptIsOk (callback envA cfgA reqB none trOffline 0 "u") = true := by decide
example : callback envA cfgA reqA none trOffline 0 "u" =
    Except.error (ShopifyError.InvalidOAuthError "Invalid OAuth callback.") := rfl
example : (callback envA cfgA reqB none trOnline999 0 "u") =
    Except.ok { outCookies := [CookieDelta.del stateCookieName],
                session := createSession cfgA trOnline999 "shop1.myshopify.io" "nonce1" 0 "u",
                logs := [] } := rfl
example : (createSession cfgA trOnline999 "shop1.myshopify.io" "nonce1" 0 "u").id =
    "shop1.myshopify.io_999" := by decide
example : exceptIsOk (callback envA cfgNE reqB none trOffline 0 "u") = true := by decide

/-- After filtering out every cookie with a given name, that name is absent. -/
lemma lookupCookie_filter_ne (jar : List SignedCookie) (n : String) :
    lookupCookie (List.filter (fun c => !(c.name == n)) jar) n = none := by
  induction jar with
  | nil => rfl
  | cons c cs ih =>
    cases hh : c.name == n with
    | true =>
      simp only [List.filter_cons, hh, Bool.not_true, Bool.false_eq_true, if_false]
      exact ih
    | false =>
      simp only [List.filter_cons, hh, Bool.not_false, if_true, lookupCookie, List.find?_cons]
      exact ih

/-- Filtering preserves the absence of a cookie name. -/
lemma lookupCookie_filter_of_none (jar : List SignedCookie) (q : SignedCookie → Bool)
    (n : String) (h : lookupCookie jar n = none) :
    lookupCookie (List.filter q jar) n = none := by
  induction jar with
  | nil => rfl
  | cons c cs ih =>
    simp only [lookupCookie, List.find?_cons] at h
    cases hh : c.name == n with
    | true => simp [hh] at h
    | false =>
      simp only [hh] at h
      cases hq : q c with
      | true => simpa [List.filter_cons, hq, lookupCookie, List.find?_cons, hh] using ih h
      | false => simpa [List.filter_cons, hq] using ih h

/-- Looking a name up in an appended jar skips an absent prefix. -/
lemma lookupCookie_append (A B : List SignedCookie) (n : String)
    (h : lookupCookie A n = none) :
    lookupCookie (A ++ B) n = lookupCookie B n := by
  induction A with
  | nil => rfl
  | cons c cs ih =>
    simp only [lookupCookie, List.find?_cons] at h ⊢
    cases hh : c.name == n with
    | true => simp [hh] at h
    | false =>
      simp only [hh] at h ⊢
      simpa [List.cons_append, lookupCookie, List.find?_cons, hh] using ih h

/-- The names of the two cookies differ. -/
lemma sessionCookieName_ne_stateCookieName :
    (sessionCookieName == stateCookieName) = false := by decide

/-- A jar holds no state cookie after applying the success mutations of
callback: the deletion of the state cookie followed by an optional session
cookie. -/
lemma getAndVerify_after_success_deltas (env : Collaborators) (keys : List String)
    (jar : List SignedCookie) (rest : List CookieDelta)
    (hrest : rest = [] ∨ ∃ c, rest = [CookieDelta.set c] ∧ c.name = sessionCookieName) :
    cookiesGetAndVerify env keys
      (applyDeltas jar (CookieDelta.del stateCookieName :: rest)) stateCookieName = none := by
  rcases hrest with hnil | ⟨c, hc, hname⟩
  · subst hnil
    show cookiesGetAndVerify env keys
      (List.filter (fun x => !(x.name == stateCookieName)) jar) stateCookieName = none
    unfold cookiesGetAndVerify
    rw [lookupCookie_filter_ne]
  · subst hc
    show cookiesGetAndVerify env keys
      ((List.filter (fun x => !(x.name == c.name))
          (List.filter (fun x => !(x.name == stateCookieName)) jar)) ++ [c]) stateCookieName = none
    unfold cookiesGetAndVerify
    rw [lookupCookie_append, lookupCookie]
    · simp [List.find?_cons, hname, sessionCookieName_ne_stateCookieName]
    · exact lookupCookie_filter_of_none _ _ _ (lookupCookie_filter_ne jar stateCookieName)

/-- Inversion of a successful callback run: the app is not private, the state
cookie verified to some value, the query validated against it, the shop
sanitized, the session is createSession's, and the outgoing cookie mutations
delete the state cookie and, for non-embedded apps only, set the session
cookie to the session id. -/
lemma callback_ok_inv (env : Collaborators) (config : ConfigInterface)
    (req : NormalizedRequest) (p : Option Bool) (tr : TokenResponseBody)
    (now : Int) (uuid : String) (r : CallbackResult)
    (h : callback env config req p tr now uuid = Except.ok r) :
    config.isPrivateApp = false ∧
    ∃ st cleanShop,
      cookiesGetAndVerify env [config.apiSecretKey] req.cookies stateCookieName = some st ∧
      validQuery env config req.query st = true ∧
      env.sanitizeShop ((req.query.lookup "shop").getD "") = some cleanShop ∧
      r.session = createSession config tr cleanShop st now uuid ∧
      r.logs = (if p.isSome then [deprecationNotice] else []) ∧
      r.outCookies = (if config.isEmbeddedApp then [CookieDelta.del stateCookieName]
        else [CookieDelta.del stateCookieName,
              cookiesSetAndSign env [config.apiSecretKey] sessionCookieName
                (createSession config tr cleanShop st now uuid).id]) := by
  unfold callback at h
  cases hc : callbackCore env config req tr now uuid with
  | error e => rw [hc] at h; exact absurd h (by simp [Except.map])
  | ok ds =>
    rw [hc] at h
    simp only [Except.map, Except.ok.injEq] at h
    unfold callbackCore at hc
    split at hc
    · simp at hc
    · rename_i hpriv
      split at hc
      · simp at hc
      · rename_i st hcv
        split at hc
        · rename_i hvq
          split at hc
          · simp at hc
          · rename_i cleanShop hss
            simp only [Except.ok.injEq] at hc
            simp only [Bool.not_eq_true] at hpriv
            refine ⟨hpriv, st, cleanShop, hcv, hvq, hss, ?_, ?_, ?_⟩
            · rw [← h, ← hc]
            · rw [← h]
            · rw [← h, ← hc]
        · simp at hc

/-- The access mode of a created session is exactly the presence of the online
block of the token-exchange response. -/
lemma createSession_isOnline (config : ConfigInterface) (tr : TokenResponseBody)
    (shop st : String) (now : Int) (uuid : String) :
    (createSession config tr shop st now uuid).isOnline = tr.online.isSome := by
  cases h : tr.online with
  | none => simp [createSession, h]
  | some rest => simp [createSession, h]

/-- C1: in every callback invocation where the state cookie was retrieved but
HMAC verification of the callback query or the constant-time comparison of the
state parameter against the cookie value fails, callback raises the
invalid-OAuth-callback typed error (the source class InvalidOAuthError) and no
Session is constructed or returned. -/
theorem C1_invalid_callback (env : Collaborators) (config : ConfigInterface)
    (req : NormalizedRequest) (p : Option Bool) (tr : TokenResponseBody)
    (now : Int) (uuid : String) (st : String)
    (hpriv : config.isPrivateApp = false)
    (hcookie : cookiesGetAndVerify env [config.apiSecretKey] req.cookies stateCookieName
      = some st)
    (hbad : validQuery env config req.query st = false) :
    callback env config req p tr now uuid =
      Except.error (ShopifyError.InvalidOAuthError "Invalid OAuth callback.") := by
  unfold callback callbackCore
  simp [hpriv, hcookie, hbad, Except.map]

/-- C1 witness: a concrete invocation whose cookie verifies to nonce1 but whose
hmac parameter is wrong raises the invalid-OAuth-callback error. -/
theorem C1_witness :
    cfgA.isPrivateApp = false ∧
    cookiesGetAndVerify envA [cfgA.apiSecretKey] reqA.cookies stateCookieName = some "nonce1" ∧
    validQuery envA cfgA reqA.query "nonce1" = false ∧
    callback envA cfgA reqA none trOffline 0 "u" =
      Except.error (ShopifyError.InvalidOAuthError "Invalid OAuth callback.") :=
  ⟨rfl, rfl, rfl, C1_invalid_callback envA cfgA reqA none trOffline 0 "u" "nonce1" rfl rfl rfl⟩

/-- C2 counterexample: the callback handler is stateless — a pure function of
the inbound request — so a second invocation presenting the very same raw state
cookie is the identical application and succeeds again instead of raising
CookieNotFound; both invocations of the two-call sequence succeed. -/
theorem C2_counterexample :
    exceptIsOk (callback envA cfgA reqB none trOffline 0 "u") = true ∧
    isCookieNotFound (callback envA cfgA reqB none trOffline 0 "u") = false :=
  ⟨rfl, rfl⟩

/-- C2 amended: a callback invocation whose signed state cookie is absent or
fails MAC verification raises CookieNotFound before further processing; and
after a successful callback the returned cookie mutations delete the state
cookie, so a client jar that applies them presents no state cookie and any
second callback from it raises CookieNotFound. -/
theorem C2_state_cookie_single_use (env : Collaborators) (config : ConfigInterface)
    (req : NormalizedRequest) (p : Option Bool) (tr : TokenResponseBody)
    (now : Int) (uuid : String) :
    (config.isPrivateApp = false →
      cookiesGetAndVerify env [config.apiSecretKey] req.cookies stateCookieName = none →
      callback env config req p tr now uuid =
        Except.error (ShopifyError.CookieNotFound
          ("Cannot complete OAuth process. Could not find an OAuth cookie for shop url: " ++
            (req.query.lookup "shop").getD ""))) ∧
    (∀ (r : CallbackResult) (q2 : List (String × String)) (p2 : Option Bool)
        (tr2 : TokenResponseBody) (now2 : Int) (uuid2 : String),
      callback env config req p tr now uuid = Except.ok r →
      isCookieNotFound (callback env config
        { query := q2, cookies := applyDeltas req.cookies r.outCookies }
        p2 tr2 now2 uuid2) = true) := by
  constructor
  · intro hpriv hnone
    unfold callback callbackCore
    simp [hpriv, hnone, Except.map]
  · intro r q2 p2 tr2 now2 uuid2 h
    obtain ⟨hpriv, st, cs, -, -, -, -, -, hout⟩ :=
      callback_ok_inv env config req p tr now uuid r h
    have hgone : cookiesGetAndVerify env [config.apiSecretKey]
        (applyDeltas req.cookies r.outCookies) stateCookieName = none := by
      rw [hout]
      cases hemb : config.isEmbeddedApp with
      | true =>
        simp only [hemb, if_true]
        exact getAndVerify_after_success_deltas env _ _ [] (Or.inl rfl)
      | false =>
        simp only [hemb, Bool.false_eq_true, if_false, cookiesSetAndSign]
        exact getAndVerify_after_success_deltas env _ _ _ (Or.inr ⟨_, rfl, rfl⟩)
    unfold callback callbackCore
    simp [hpriv, hgone, Except.map, isCookieNotFound]

/-- C2 witness: a concrete cookie-less invocation raises CookieNotFound, and
after a concrete successful callback the client jar obtained by applying the
response mutations makes the next invocation raise CookieNotFound. -/
theorem C2_witness :
    callback envA cfgA reqNoCookie none trOffline 0 "u" =
      Except.error (ShopifyError.CookieNotFound
        ("Cannot complete OAuth process. Could not find an OAuth cookie for shop url: " ++
          (reqNoCookie.query.lookup "shop").getD "")) ∧
    isCookieNotFound (callback envA cfgA
      { query := reqB.query, cookies := applyDeltas reqB.cookies resBonline.outCookies }
      none trOffline 0 "u2") = true :=
  ⟨(C2_state_cookie_single_use envA cfgA reqNoCookie none trOffline 0 "u").1 rfl rfl,
   (C2_state_cookie_single_use envA cfgA reqB none trOnline999 0 "u").2
     resBonline reqB.query none trOffline 0 "u2" rfl⟩

/-- C3: the deprecated isOnline parameter of callback never influences the
result beyond the deprecation log entry — its value is ignored — and the access
mode of every returned Session is exactly the presence of the associated_user
block of the token-exchange response. -/
theorem C3_isOnline_param_ignored (env : Collaborators) (config : ConfigInterface)
    (req : NormalizedRequest) (tr : TokenResponseBody) (now : Int) (uuid : String)
    (b1 b2 : Bool) :
    callback env config req (some b1) tr now uuid
      = callback env config req (some b2) tr now uuid ∧
    (∀ r1 r2 : CallbackResult,
      callback env config req (some b1) tr now uuid = Except.ok r1 →
      callback env config req none tr now uuid = Except.ok r2 →
      r1.session = r2.session ∧ r1.outCookies = r2.outCookies ∧
      r1.logs = [deprecationNotice] ∧ r2.logs = []) ∧
    (∀ (p : Option Bool) (r : CallbackResult),
      callback env config req p tr now uuid = Except.ok r →
      r.session.isOnline = tr.online.isSome) := by
  refine ⟨?_, ?_, ?_⟩
  · unfold callback
    cases hc : callbackCore env config req tr now uuid <;> simp [Except.map]
  · intro r1 r2 h1 h2
    unfold callback at h1 h2
    cases hc : callbackCore env config req tr now uuid with
    | error e => rw [hc] at h1; exact absurd h1 (by simp [Except.map])
    | ok ds =>
      rw [hc] at h1 h2
      simp only [Except.map, Except.ok.injEq] at h1 h2
      rw [← h1, ← h2]
      simp
  · intro pp r h
    obtain ⟨-, st, cs, -, -, -, hsess, -, -⟩ :=
      callback_ok_inv env config req pp tr now uuid r h
    rw [hsess, createSession_isOnline]

/-- C3 witness: on a concrete valid online callback the parameter values true
and false give identical results, and the returned session is online exactly
because the response carries an associated_user block. -/
theorem C3_witness :
    callback envA cfgA reqB (some true) trOnline999 0 "u"
      = callback envA cfgA reqB (some false) trOnline999 0 "u" ∧
    callback envA cfgA reqB none trOnline999 0 "u" = Except.ok resBonline ∧
    resBonline.session.isOnline = trOnline999.online.isSome :=
  ⟨(C3_isOnline_param_ignored envA cfgA reqB trOnline999 0 "u" true false).1,
   rfl,
   (C3_isOnline_param_ignored envA cfgA reqB trOnline999 0 "u" true false).2.2
     none resBonline rfl⟩

/-- C4: every Session returned by callback is online exactly when its
onlineAccessInfo is present, exactly when expires is present; an online session
expires at the creation time plus expires_in seconds (milliseconds in the
model) from the token-exchange response, and an offline session carries
neither onlineAccessInfo nor expires. -/
theorem C4_session_mode_invariants (env : Collaborators) (config : ConfigInterface)
    (req : NormalizedRequest) (p : Option Bool) (tr : TokenResponseBody)
    (now : Int) (uuid : String) (r : CallbackResult)
    (h : callback env config req p tr now uuid = Except.ok r) :
    (r.session.isOnline = true ↔ r.session.onlineAccessInfo.isSome = true) ∧
    (r.session.isOnline = true ↔ r.session.expires.isSome = true) ∧
    (∀ rest : OnlineAccessInfoRest, tr.online = some rest →
      r.session.expires = some (now + (rest.expires_in : Int) * 1000) ∧
      r.session.onlineAccessInfo = some rest) ∧
    (tr.online = none →
      r.session.onlineAccessInfo = none ∧ r.session.expires = none) := by
  obtain ⟨-, st, cs, -, -, -, hsess, -, -⟩ :=
    callback_ok_inv env config req p tr now uuid r h
  rw [hsess]
  cases hon : tr.online with
  | none => simp [createSession, hon]
  | some rest => simp [createSession, hon]

/-- C4 witness: the invariants evaluated on a concrete online callback. -/
theorem C4_witness :
    (resBonline.session.isOnline = true ↔ resBonline.session.expires.isSome = true) ∧
    resBonline.session.expires = some ((0 : Int) + (onlineRest999.expires_in : Int) * 1000) :=
  ⟨(C4_session_mode_invariants envA cfgA reqB none trOnline999 0 "u" resBonline rfl).2.1,
   ((C4_session_mode_invariants envA cfgA reqB none trOnline999 0 "u" resBonline rfl).2.2.1
     onlineRest999 rfl).1⟩

/-- C5: offline session ids are the deterministic offline_<shop> string,
independent of every other input; online ids in embedded-app mode are the
deterministic <shop>_<userId> combination; and online ids outside embedded-app
mode are the fresh uuid draw, so two calls with distinct draws differ. -/
theorem C5_session_id (config : ConfigInterface) (tr1 tr2 : TokenResponseBody)
    (shop st1 st2 : String) (now1 now2 : Int) (u1 u2 : String) :
    (tr1.online = none →
      (createSession config tr1 shop st1 now1 u1).id = "offline_" ++ shop) ∧
    (tr1.online = none → tr2.online = none →
      (createSession config tr1 shop st1 now1 u1).id
        = (createSession config tr2 shop st2 now2 u2).id) ∧
    (∀ r1 r2 : OnlineAccessInfoRest, config.isEmbeddedApp = true →
      tr1.online = some r1 → tr2.online = some r2 →
      (createSession config tr1 shop st1 now1 u1).id
        = shop ++ "_" ++ toString r1.associated_user.id ∧
      (r1.associated_user.id = r2.associated_user.id →
        (createSession config tr1 shop st1 now1 u1).id
          = (createSession config tr2 shop st2 now2 u2).id)) ∧
    (∀ r1 r2 : OnlineAccessInfoRest, config.isEmbeddedApp = false →
      tr1.online = some r1 → tr2.online = some r2 →
      (createSession config tr1 shop st1 now1 u1).id = u1 ∧
      (u1 ≠ u2 →
        (createSession config tr1 shop st1 now1 u1).id
          ≠ (createSession config tr2 shop st2 now2 u2).id)) := by
  refine ⟨?_, ?_, ?_, ?_⟩
  · intro h1
    simp [createSession, h1, getOfflineId]
  · intro h1 h2
    simp [createSession, h1, h2, getOfflineId]
  · intro r1 r2 hemb h1 h2
    constructor
    · simp [createSession, h1, hemb, getJwtSessionId]
    · intro hid
      simp [createSession, h1, h2, hemb, getJwtSessionId, hid]
  · intro r1 r2 hemb h1 h2
    constructor
    · simp [createSession, h1, hemb]
    · intro hne
      simp only [createSession, h1, h2, hemb, Bool.false_eq_true, if_false]
      exact hne

/-- C5 witness: the three derivations evaluated at concrete inputs. -/
theorem C5_witness :
    (createSession cfgA trOffline "shop1.myshopify.io" "n" 0 "u1").id
      = "offline_" ++ "shop1.myshopify.io" ∧
    (createSession cfgA trOnline999 "shop1.myshopify.io" "n" 0 "u1").id
      = "shop1.myshopify.io" ++ "_" ++ toString onlineRest999.associated_user.id ∧
    (createSession cfgNE trOnline999 "shop1.myshopify.io" "n" 0 "u1").id
      ≠ (createSession cfgNE trOnline999 "shop1.myshopify.io" "n2" 5 "u2").id :=
  ⟨(C5_session_id cfgA trOffline trOffline "shop1.myshopify.io" "n" "n" 0 0 "u1" "u1").1 rfl,
   ((C5_session_id cfgA trOnline999 trOnline999 "shop1.myshopify.io" "n" "n" 0 0 "u1" "u1").2.2.1
     onlineRest999 onlineRest999 rfl rfl rfl).1,
   ((C5_session_id cfgNE trOnline999 trOnline999 "shop1.myshopify.io" "n" "n2" 0 5 "u1" "u2").2.2.2
     onlineRest999 onlineRest999 rfl rfl rfl).2 (by decide)⟩

/-- C6: begin and callback under a private-app configuration raise the typed
PrivateAppError immediately; the error result carries no cookie, no redirect,
and no Session. -/
theorem C6_private_app (env : Collaborators) (config : ConfigInterface)
    (shop cb : String) (isOnline : Bool) (st : String)
    (req : NormalizedRequest) (p : Option Bool) (tr : TokenResponseBody)
    (now : Int) (uuid : String)
    (hpriv : config.isPrivateApp = true) :
    begin env config shop cb isOnline st =
      Except.error (ShopifyError.PrivateAppError "Cannot perform OAuth for private apps") ∧
    callback env config req p tr now uuid =
      Except.error (ShopifyError.PrivateAppError "Cannot perform OAuth for private apps") := by
  constructor
  · unfold begin
    simp [hpriv]
  · unfold callback callbackCore
    simp [hpriv, Except.map]

/-- C6 witness: the private-app configuration rejects both calls. -/
theorem C6_witness :
    begin envA cfgPriv "shop1.myshopify.io" "/auth/callback" false "nonce1" =
      Except.error (ShopifyError.PrivateAppError "Cannot perform OAuth for private apps") ∧
    callback envA cfgPriv reqB none trOffline 0 "u" =
      Except.error (ShopifyError.PrivateAppError "Cannot perform OAuth for private apps") :=
  C6_private_app envA cfgPriv "shop1.myshopify.io" "/auth/callback" false "nonce1"
    reqB none trOffline 0 "u" rfl

/-- C7: a successful begin returns a 302 whose Location is the authorization
URL on the sanitized shop with the client id, scopes, redirect_uri composed of
the host scheme, host name and callback path, the state nonce, and a
grant_options parameter that is per-user exactly when isOnline — and the state
query parameter is the same value signed into the accompanying state cookie. -/
theorem C7_begin_redirect (env : Collaborators) (config : ConfigInterface)
    (shop cb st cleanShop : String) (isOnline : Bool)
    (hpriv : config.isPrivateApp = false)
    (hshop : env.sanitizeShop shop = some cleanShop) :
    begin env config shop cb isOnline st = Except.ok
      { statusCode := 302, statusText := "Found",
        location := "https://" ++ (cleanShop ++ ("/admin/oauth/authorize" ++ ("?" ++
          ("client_id" ++ ("=" ++ (encodeURIComponent config.apiKey ++ ("&" ++
          ("scope" ++ ("=" ++ (encodeURIComponent config.scopes ++ ("&" ++
          ("redirect_uri" ++ ("=" ++
            (encodeURIComponent (config.hostScheme ++ ("://" ++ (config.hostName ++ cb))) ++ ("&" ++
          ("state" ++ ("=" ++ (encodeURIComponent st ++ ("&" ++
          ("grant_options[]" ++ ("=" ++
            encodeURIComponent (if isOnline then "per-user" else "")))))))))))))))))))))),
        setCookies := [CookieDelta.set
          { name := stateCookieName, value := st,
            sig := cookieMac env config.apiSecretKey stateCookieName st }] } ∧
    encodeURIComponent "per-user" = "per-user" ∧ encodeURIComponent "" = "" := by
  refine ⟨?_, by decide, by decide⟩
  unfold begin
  simp only [hpriv, Bool.false_eq_true, if_false, hshop, cookiesSetAndSign, List.headD,
    stringifyQuery, List.map_cons, List.map_nil, joinAmp, Except.ok.injEq,
    BeginResult.mk.injEq, String.append_assoc]

/-- C7 witness: the redirect evaluated at a concrete shop and nonce, with the
Location header fully evaluated to its literal URL. -/
theorem C7_witness :
    (begin envA cfgA "shop1.myshopify.io" "/auth/callback" false "nonce1" = Except.ok
      { statusCode := 302, statusText := "Found",
        location := "https://" ++ ("shop1.myshopify.io" ++ ("/admin/oauth/authorize" ++ ("?" ++
          ("client_id" ++ ("=" ++ (encodeURIComponent cfgA.apiKey ++ ("&" ++
          ("scope" ++ ("=" ++ (encodeURIComponent cfgA.scopes ++ ("&" ++
          ("redirect_uri" ++ ("=" ++
            (encodeURIComponent (cfgA.hostScheme ++ ("://" ++ (cfgA.hostName ++ "/auth/callback")))
              ++ ("&" ++
          ("state" ++ ("=" ++ (encodeURIComponent "nonce1" ++ ("&" ++
          ("grant_options[]" ++ ("=" ++
            encodeURIComponent (if false then "per-user" else "")))))))))))))))))))))),
        setCookies := [CookieDelta.set
          { name := stateCookieName, value := "nonce1",
            sig := cookieMac envA cfgA.apiSecretKey stateCookieName "nonce1" }] } ∧
      encodeURIComponent "per-user" = "per-user" ∧ encodeURIComponent "" = "") ∧
    locationOf (begin envA cfgA "shop1.myshopify.io" "/auth/callback" false "nonce1") =
      "https://shop1.myshopify.io/admin/oauth/authorize?client_id=key&scope=read_products&redirect_uri=https%3A%2F%2Fapp.example.io%2Fauth%2Fcallback&state=nonce1&grant_options[]=" :=
  ⟨C7_begin_redirect envA cfgA "shop1.myshopify.io" "/auth/callback" "nonce1"
    "shop1.myshopify.io" false rfl rfl, rfl⟩

/-- C8: on every successful callback the returned cookie mutations carry a
signed session cookie whose value is the Session id exactly when the app is not
embedded; for embedded apps no session cookie is set. -/
theorem C8_session_cookie (env : Collaborators) (config : ConfigInterface)
    (req : NormalizedRequest) (p : Option Bool) (tr : TokenResponseBody)
    (now : Int) (uuid : String) (r : CallbackResult)
    (h : callback env config req p tr now uuid = Except.ok r) :
    (config.isEmbeddedApp = true →
      findSetCookie r.outCookies sessionCookieName = none) ∧
    (config.isEmbeddedApp = false →
      findSetCookie r.outCookies sessionCookieName =
        some { name := sessionCookieName, value := r.session.id,
               sig := cookieMac env config.apiSecretKey sessionCookieName r.session.id }) := by
  obtain ⟨-, st, cs, -, -, -, hsess, -, hout⟩ :=
    callback_ok_inv env config req p tr now uuid r h
  constructor
  · intro hemb
    rw [hout]
    simp [hemb, findSetCookie]
  · intro hemb
    rw [hout, hsess]
    simp [hemb, findSetCookie, cookiesSetAndSign, List.headD]

/-- C8 witness: a concrete non-embedded success sets the session cookie to the
session id. -/
theorem C8_witness :
    callback envA cfgNE reqB none trOffline 0 "u" = Except.ok resNEoff ∧
    findSetCookie resNEoff.outCookies sessionCookieName =
      some { name := sessionCookieName, value := resNEoff.session.id,
             sig := cookieMac envA cfgNE.apiSecretKey sessionCookieName resNEoff.session.id } :=
  ⟨rfl, (C8_session_cookie envA cfgNE reqB none trOffline 0 "u" resNEoff rfl).2 rfl⟩

/-- C9: constructing a GraphqlClient raises MissingRequiredArgument exactly in
the non-private case without a (truthy) access token; a private-app client is
constructed regardless and its access-token header carries the configured API
secret key. -/
theorem C9_graphql_client (config : ConfigInterface) (sess : GQSession) :
    (config.isPrivateApp = false → truthyStr sess.accessToken = false →
      mkGraphqlClient config sess =
        Except.error (ShopifyError.MissingRequiredArgument
          "Missing access token when creating GraphQL client")) ∧
    (config.isPrivateApp = true →
      mkGraphqlClient config sess = Except.ok { session := sess, clientDomain := sess.shop } ∧
      getAccessTokenHeader config sess =
        { header := accessTokenHeaderName, value := config.apiSecretKey }) := by
  constructor
  · intro h1 h2
    simp [mkGraphqlClient, h1, h2]
  · intro h1
    exact ⟨by simp [mkGraphqlClient, h1], by simp [getAccessTokenHeader, h1]⟩

/-- C9 witness: a token-less session is rejected for a non-private app and
accepted with the secret-key header for a private app. -/
theorem C9_witness :
    mkGraphqlClient cfgA sessNoTok =
      Except.error (ShopifyError.MissingRequiredArgument
        "Missing access token when creating GraphQL client") ∧
    mkGraphqlClient cfgPriv sessNoTok =
      Except.ok { session := sessNoTok, clientDomain := sessNoTok.shop } ∧
    getAccessTokenHeader cfgPriv sessNoTok =
      { header := accessTokenHeaderName, value := cfgPriv.apiSecretKey } :=
  ⟨(C9_graphql_client cfgA sessNoTok).1 rfl rfl,
   (C9_graphql_client cfgPriv sessNoTok).2 rfl⟩

/-- C10 counterexample: a response body that carries an errors key with a falsy
value (null) is returned, errors key included, instead of raising
GraphqlQueryError. -/
theorem C10_counterexample :
    graphqlQuery dataQ respFalsyErrors = Except.ok respFalsyErrors ∧
    hasField respFalsyErrors.body "errors" = true :=
  ⟨rfl, rfl⟩

/-- C10 amended: query raises MissingRequiredArgument for empty data — for
every value of the HTTP response argument, reflecting that no request is
issued; it raises GraphqlQueryError exactly when the response body's errors
value is truthy in the JS sense; and a returned result is the response
unchanged, never carrying a truthy errors value (though it may carry an errors
key whose value is falsy). -/
theorem C10_query_validation (d : GraphqlData) (resp : RequestReturn) :
    (queryDataMissing d = true →
      graphqlQuery d resp =
        Except.error (ShopifyError.MissingRequiredArgument "Query missing.")) ∧
    (queryDataMissing d = false → truthyField resp.body "errors" = true →
      graphqlQuery d resp =
        Except.error (ShopifyError.GraphqlQueryError "GraphQL query returned errors")) ∧
    (∀ r : RequestReturn, graphqlQuery d resp = Except.ok r →
      r = resp ∧ truthyField r.body "errors" = false) := by
  refine ⟨?_, ?_, ?_⟩
  · intro h
    simp [graphqlQuery, h]
  · intro h1 h2
    simp [graphqlQuery, h1, h2]
  · intro r h
    unfold graphqlQuery at h
    split at h
    · simp at h
    · split at h
      · simp at h
      · rename_i hmiss herr
        simp only [Except.ok.injEq] at h
        simp only [Bool.not_eq_true] at herr
        exact ⟨h.symm, by rw [← h]; exact herr⟩

/-- C10 witness: the empty-data rejection and the truthy-errors rejection at
concrete inputs. -/
theorem C10_witness :
    graphqlQuery (GraphqlData.str "") respErrors =
      Except.error (ShopifyError.MissingRequiredArgument "Query missing.") ∧
    graphqlQuery dataQ respErrors =
      Except.error (ShopifyError.GraphqlQueryError "GraphQL query returned errors") :=
  ⟨(C10_query_validation (GraphqlData.str "") respErrors).1 rfl,
   (C10_query_validation dataQ respErrors).2.1 rfl rfl⟩

end ShopifyApi
